import Mathlib

/-!
Verification of the Greeting Service in `app/app.js` of the
aws-ecs-azuredevops-ci-cd repository.

The source is a 12-line Express application:

  const express = require('express');
  const app = express();
  const PORT = 3000;
  app.get('/', (req, res) => \x7b
    res.send('Hello from ECS deployed via Azure DevOps 🚀');
  \x7d);
  app.listen(PORT, () => \x7b console.log(...); \x7d);

We embed the application together with the relevant Express/Node runtime
semantics that the application invokes:

* `app.get(path, h)` registers a route that the default Express router
  matches for method GET, and also for method HEAD when no explicit HEAD
  route exists (Express's router falls back to the GET handler for HEAD).
* `res.send(str)` with a string argument responds with the default status
  200, header `Content-Type: text/html; charset=utf-8`, and
  `Content-Length` equal to the UTF-8 byte length of the string; for a
  HEAD request the body octets are not written, headers are kept.
* An OPTIONS request whose path matches at least one registered route
  (and that no explicit OPTIONS route handles) is answered by the
  router's default OPTIONS responder: status 200, `Allow` header and
  body both the comma-joined list of allowed methods — here `GET,HEAD`,
  since a GET registration also allows HEAD.
* A request matching no registered route and not taken by the default
  OPTIONS responder falls through to Express's final handler, which
  responds 404 with an HTML body `Cannot <METHOD> <PATH>` (we keep the
  inner text of that page).
* `app.listen(PORT, cb)` binds the port once. `app.js` installs no
  `error` listener, so a bind failure (`EADDRINUSE`) is re-raised by Node
  as an uncaught exception and the process exits with code 1; there is no
  retry anywhere in the source.
-/

/-- The fixed greeting payload sent by the root handler (app.js line 7). -/
def greeting : String := "Hello from ECS deployed via Azure DevOps 🚀"

/-- The listening port constant (app.js line 4). -/
def PORT : Nat := 3000

/-- An inbound HTTP request: method, path, plus the parts the handler
never inspects (headers, body, query parameters). -/
structure HttpRequest where
  method : String
  path : String
  headers : List (String × String)
  body : String
  query : List (String × String)

/-- An HTTP response as produced by this server: status code, the
Content-Type header, the Content-Length header, the optional Allow
header (set only by the router's default OPTIONS responder), and the
body. -/
structure HttpResponse where
  status : Nat
  contentType : String
  contentLength : Nat
  allow : Option String
  body : String

/-- Express `res.send` applied to a string: default status 200,
Content-Type `text/html; charset=utf-8`, Content-Length the UTF-8 byte
length of the string, body the string itself. -/
def send (s : String) : HttpResponse :=
  { status := 200
    contentType := "text/html; charset=utf-8"
    contentLength := s.utf8ByteSize
    allow := none
    body := s }

/-- The root handler of app.js lines 6-8: ignores the request and calls
`res.send` on the fixed greeting. -/
def rootHandler (_req : HttpRequest) : HttpResponse :=
  send greeting

/-- A registered Express route: the method of the registering verb call,
the path, and the handler. -/
structure Route where
  method : String
  path : String
  handler : HttpRequest → HttpResponse

/-- The route table built by app.js: exactly one registration,
`app.get('/', ...)`. -/
def appRoutes : List Route := [⟨"GET", "/", rootHandler⟩]

/-- Express route matching: the request method must equal the route's
method, except that a route registered with GET also matches HEAD
requests (Express's default router behaviour); the path must be equal. -/
def routeMatches (r : Route) (req : HttpRequest) : Bool :=
  (req.method == r.method || (r.method == "GET" && req.method == "HEAD"))
    && req.path == r.path

/-- Express's final fallthrough handler: 404 with an HTML page whose text
is `Cannot <METHOD> <PATH>`. -/
def notFound (req : HttpRequest) : HttpResponse :=
  let b := "Cannot " ++ req.method ++ " " ++ req.path
  { status := 404
    contentType := "text/html; charset=utf-8"
    contentLength := b.utf8ByteSize
    allow := none
    body := b }

/-- The methods a registered route answers (Express `route._options`):
its registered method, plus HEAD for a GET registration. -/
def routeMethods (r : Route) : List String :=
  if r.method == "GET" then [r.method, "HEAD"] else [r.method]

/-- The methods allowed on a path: those answered by the registered
routes whose path equals it (Express's allowed-methods collection for
its default OPTIONS responder). -/
def allowedMethods (routes : List Route) (path : String) : List String :=
  ((routes.filter fun r => r.path == path).map routeMethods).flatten

/-- The router's default OPTIONS response (Express
`sendOptionsResponse`): the comma-joined allowed methods as the `Allow`
header, the same string as the body, sent through `res.send`. -/
def optionsResponse (methods : List String) : HttpResponse :=
  let b := String.intercalate "," methods
  { send b with allow := some b }

/-- The Express router: run the first route matching method and path;
otherwise an OPTIONS request whose path matches at least one registered
route gets the router's default OPTIONS response; every other request
falls through to the final 404 handler. -/
def dispatch (routes : List Route) (req : HttpRequest) : HttpResponse :=
  match routes.find? (fun r => routeMatches r req) with
  | some r => r.handler req
  | none =>
      if req.method == "OPTIONS" && !(allowedMethods routes req.path).isEmpty
      then optionsResponse (allowedMethods routes req.path)
      else notFound req

/-- Node's response finalisation for HEAD requests: the headers computed
by the handler are kept but no body octets are written. -/
def stripHeadBody (req : HttpRequest) (res : HttpResponse) : HttpResponse :=
  if req.method == "HEAD" then { res with body := "" } else res

/-- The complete request-to-response function of the running app:
dispatch through the route table, then apply HEAD body stripping. -/
def handle (req : HttpRequest) : HttpResponse :=
  stripHeadBody req (dispatch appRoutes req)

/-- The process-wide state of the service: the bound port and the payload
constant. Nothing in app.js ever writes to either after startup. -/
structure ServerState where
  port : Nat
  payload : String

/-- The state right after a successful `app.listen(PORT, ...)`. -/
def initState : ServerState := { port := PORT, payload := greeting }

/-- Handling one request: the handler body is a single `res.send` call,
so the server state is returned unmodified alongside the response. -/
def handleStep (s : ServerState) (req : HttpRequest) :
    ServerState × HttpResponse :=
  (s, handle req)

/-- Running the server over a sequence of requests, threading the state
through `handleStep` and collecting the responses. -/
def runServer (s : ServerState) :
    List HttpRequest → ServerState × List HttpResponse
  | [] => (s, [])
  | req :: reqs =>
      let p := handleStep s req
      let q := runServer p.1 reqs
      (q.1, p.2 :: q.2)

/-- The response the server produces for request `req` after having
already served the request history `hist` from state `s`. -/
def finalResponse (s : ServerState) (hist : List HttpRequest)
    (req : HttpRequest) : HttpResponse :=
  (handleStep (runServer s hist).1 req).2

/-- Outcome of process startup: either the server is running with a bound
port, or the process exited with the given code. -/
inductive StartResult where
  | running (boundPort : Nat)
  | exited (code : Nat)
deriving DecidableEq

/-- `app.listen(PORT, cb)` as called on app.js lines 10-12, given whether
the port is already occupied. app.js installs no `error` listener, so on
`EADDRINUSE` Node re-raises the error as an uncaught exception and the
process exits with code 1; on success the server runs bound to `PORT`.
No retry exists in the source. -/
def startServer (portInUse : Bool) : StartResult :=
  if portInUse then .exited 1 else .running PORT

/-- Observable startup events of the process. -/
inductive Event where
  | bind (port : Nat)
  | listenLog (port : Nat)
  | exit (code : Nat)
deriving DecidableEq

/-- Recogniser for bind events. -/
def isBind : Event → Bool
  | .bind _ => true
  | _ => false

/-- The startup event trace of app.js: exactly one bind attempt on
`PORT`; on success the listen callback logs, on failure the process
exits with code 1. -/
def startupTrace (portInUse : Bool) : List Event :=
  if portInUse then [.bind PORT, .exit 1] else [.bind PORT, .listenLog PORT]

/-- A concrete plain GET request for the root path. -/
def getRoot : HttpRequest :=
  { method := "GET", path := "/", headers := [], body := "", query := [] }

/-- A concrete POST request for the root path. -/
def postRoot : HttpRequest :=
  { method := "POST", path := "/", headers := [], body := "", query := [] }

/-- A concrete HEAD request for the root path. -/
def headRoot : HttpRequest :=
  { method := "HEAD", path := "/", headers := [], body := "", query := [] }

/-- A concrete GET request for a non-root path. -/
def getAnything : HttpRequest :=
  { method := "GET", path := "/anything", headers := [], body := "", query := [] }

/-- A concrete OPTIONS request for the root path. -/
def optionsRoot : HttpRequest :=
  { method := "OPTIONS", path := "/", headers := [], body := "", query := [] }

/-- Any request with method GET and path `/` is matched by the single
registered route, so `handle` returns exactly `send greeting`. -/
theorem handle_get_root (req : HttpRequest) (h1 : req.method = "GET")
    (h2 : req.path = "/") : handle req = send greeting := by
  have hm : routeMatches ⟨"GET", "/", rootHandler⟩ req = true := by
    simp [routeMatches, h1, h2]
  simp [handle, dispatch, appRoutes, hm, stripHeadBody, rootHandler, h1]

/-- A HEAD request to `/` is matched by the GET registration; the
response keeps the headers of `send greeting` but carries no body. -/
theorem handle_head_root (req : HttpRequest) (h1 : req.method = "HEAD")
    (h2 : req.path = "/") : handle req = { send greeting with body := "" } := by
  have hm : routeMatches ⟨"GET", "/", rootHandler⟩ req = true := by
    simp [routeMatches, h1, h2]
  simp [handle, dispatch, appRoutes, hm, stripHeadBody, rootHandler, h1]

/-- A request whose method is none of GET, HEAD and OPTIONS, or whose
path is not `/`, matches no route, is not taken by the default OPTIONS
responder, and falls through to the 404 handler. -/
theorem handle_unmatched (req : HttpRequest)
    (h : (req.method ≠ "GET" ∧ req.method ≠ "HEAD" ∧ req.method ≠ "OPTIONS")
      ∨ req.path ≠ "/") :
    handle req = stripHeadBody req (notFound req) := by
  have hm : routeMatches ⟨"GET", "/", rootHandler⟩ req = false := by
    rcases h with ⟨hg, hh, _⟩ | hp
    · simp [routeMatches, hg, hh]
    · simp [routeMatches, hp]
  rcases h with ⟨_, _, ho⟩ | hp
  · have ho' : (req.method == "OPTIONS") = false := by simp [ho]
    simp [handle, dispatch, appRoutes, hm, ho']
  · have hp' : ("/" == req.path) = false := by
      simp [Ne.symm hp]
    simp [handle, dispatch, appRoutes, hm, allowedMethods, hp']

/-- `runServer` never changes the server state: `handleStep` returns its
input state unchanged, so the fold preserves it. -/
theorem runServer_state (s : ServerState) (hist : List HttpRequest) :
    (runServer s hist).1 = s := by
  induction hist with
  | nil => rfl
  | cons r rs ih => simpa [runServer, handleStep] using ih

/-- C1: every request with method GET and path `/` gets status 200 with
the fixed greeting body, and the bodies of any two such calls (in
particular repeated identical calls) are byte-identical. -/
theorem c1_get_root_idempotent (req req' : HttpRequest)
    (h1 : req.method = "GET") (h2 : req.path = "/")
    (h3 : req'.method = "GET") (h4 : req'.path = "/") :
    (handle req).status = 200 ∧ (handle req).body = greeting ∧
      (handle req).body = (handle req').body := by
  rw [handle_get_root req h1 h2, handle_get_root req' h3 h4]
  exact ⟨rfl, rfl, rfl⟩

/-- Witness for C1 at the concrete request `getRoot`. -/
theorem c1_get_root_idempotent_witness :
    (handle getRoot).status = 200 ∧ (handle getRoot).body = greeting ∧
      (handle getRoot).body = (handle getRoot).body :=
  c1_get_root_idempotent getRoot getRoot rfl rfl rfl rfl

/-- C2 counterexample: a POST request to `/` does not receive the
greeting payload; it gets the 404 fallthrough, refuting "regardless of
the request's HTTP method ... no error response". -/
theorem c2_counterexample :
    (handle postRoot).status = 404 ∧ (handle postRoot).body ≠ greeting := by
  exact ⟨rfl, by decide⟩

/-- C2 (amended): every GET request to `/` receives the fixed greeting
payload with no error response, regardless of the request's headers,
body or query parameters; the response is not method-independent, since
a POST to `/` receives the 404 default instead of the greeting. -/
theorem c2_root_accepts_any_get (req : HttpRequest)
    (h1 : req.method = "GET") (h2 : req.path = "/") :
    ((handle req).status = 200 ∧ (handle req).body = greeting) ∧
      (handle postRoot).status = 404 ∧ (handle postRoot).body ≠ greeting := by
  rw [handle_get_root req h1 h2]
  exact ⟨⟨rfl, rfl⟩, rfl, by decide⟩

/-- Witness for the amended C2 at the concrete request `getRoot`. -/
theorem c2_root_accepts_any_get_witness :
    (((handle getRoot).status = 200 ∧ (handle getRoot).body = greeting) ∧
      (handle postRoot).status = 404 ∧ (handle postRoot).body ≠ greeting) :=
  c2_root_accepts_any_get getRoot rfl rfl

/-- C3: for any request outside GET on the root route, the response after
any two prior request histories (two independent runs of the server) is
identical — unmatched behaviour is deterministic and consistent. -/
theorem c3_unmatched_deterministic (req : HttpRequest)
    (h : ¬(req.method = "GET" ∧ req.path = "/"))
    (hist1 hist2 : List HttpRequest) :
    finalResponse initState hist1 req = finalResponse initState hist2 req := by
  simp [finalResponse, runServer_state]

/-- Witness for C3: a POST to `/` after an empty history and after a
one-request history yields the same response. -/
theorem c3_unmatched_deterministic_witness :
    finalResponse initState [] postRoot =
      finalResponse initState [getRoot] postRoot :=
  c3_unmatched_deterministic postRoot (by decide) [] [getRoot]

/-- C4: when the configured port is occupied, startup ends in process
exit with the non-zero code 1, and the trace shows a single bind attempt
(no retry) followed by the exit (no hang). -/
theorem c4_bind_failure_exits_nonzero :
    startServer true = StartResult.exited 1 ∧ (1 : Nat) ≠ 0 ∧
      (startupTrace true).filter isBind = [Event.bind PORT] ∧
      startupTrace true = [Event.bind PORT, Event.exit 1] := by
  refine ⟨rfl, by decide, rfl, rfl⟩

/-- C5: the listening port is the single configurable constant 3000; every
startup performs exactly one bind, on that port, and the port field of the
server state is never modified over any run. -/
theorem c5_port_single_bind (portInUse : Bool) (s : ServerState)
    (hist : List HttpRequest) :
    PORT = 3000 ∧
      (startupTrace portInUse).filter isBind = [Event.bind PORT] ∧
      (runServer s hist).1.port = s.port ∧ initState.port = PORT := by
  refine ⟨rfl, ?_, by rw [runServer_state], rfl⟩
  cases portInUse <;> rfl

/-- C6: handling any request leaves the server state (port and payload)
unchanged; the step's only output beyond the state is the response. -/
theorem c6_handler_frame (s : ServerState) (req : HttpRequest) :
    (handleStep s req).1 = s ∧ (handleStep s req).2 = handle req :=
  ⟨rfl, rfl⟩

/-- C7: the response to any request is independent of the previously
handled request history: any two histories lead to identical responses
for the same final request. -/
theorem c7_history_independent (s : ServerState)
    (hist1 hist2 : List HttpRequest) (req : HttpRequest) :
    finalResponse s hist1 req = finalResponse s hist2 req := by
  simp [finalResponse, runServer_state]

/-- C8 counterexample: an OPTIONS request to `/` does not receive the
404 final handler; the router's default OPTIONS responder answers 200
with `Allow: GET,HEAD`, refuting "any method other than GET or HEAD ...
receives the framework's default 404". -/
theorem c8_counterexample :
    (handle optionsRoot).status = 200 ∧
      (handle optionsRoot).allow = some "GET,HEAD" ∧
      ¬((handle optionsRoot).status = 404) := by
  exact ⟨rfl, rfl, by decide⟩

/-- C8 (amended): every request not matching the single registered route
and not taken by the router's default OPTIONS responder (method outside
GET/HEAD/OPTIONS, or path other than `/`) gets the framework's default
404 response; an OPTIONS request to `/` gets the router's default 200
response with `Allow: GET,HEAD`; the route table holds exactly one
route. -/
theorem c8_unmatched_default (req : HttpRequest)
    (h : (req.method ≠ "GET" ∧ req.method ≠ "HEAD" ∧ req.method ≠ "OPTIONS")
      ∨ req.path ≠ "/") :
    (handle req).status = 404 ∧
      handle req = stripHeadBody req (notFound req) ∧
      (handle optionsRoot).status = 200 ∧
      (handle optionsRoot).allow = some "GET,HEAD" ∧
      appRoutes.length = 1 := by
  have hm := handle_unmatched req h
  refine ⟨?_, hm, rfl, rfl, rfl⟩
  rw [hm]
  unfold stripHeadBody
  split <;> rfl

/-- Witness for the amended C8 at the concrete request `getAnything`. -/
theorem c8_unmatched_default_witness :
    (handle getAnything).status = 404 ∧
      handle getAnything = stripHeadBody getAnything (notFound getAnything) ∧
      (handle optionsRoot).status = 200 ∧
      (handle optionsRoot).allow = some "GET,HEAD" ∧
      appRoutes.length = 1 :=
  c8_unmatched_default getAnything (Or.inr (by decide))

/-- C9: the GET `/` response body is exactly the greeting string (rocket
emoji included) and, since it is sent as a string through `res.send`, the
Content-Type is `text/html; charset=utf-8`. -/
theorem c9_body_and_content_type (req : HttpRequest)
    (h1 : req.method = "GET") (h2 : req.path = "/") :
    (handle req).body = "Hello from ECS deployed via Azure DevOps 🚀" ∧
      (handle req).contentType = "text/html; charset=utf-8" := by
  rw [handle_get_root req h1 h2]
  exact ⟨rfl, rfl⟩

/-- Witness for C9 at the concrete request `getRoot`. -/
theorem c9_body_and_content_type_witness :
    (handle getRoot).body = "Hello from ECS deployed via Azure DevOps 🚀" ∧
      (handle getRoot).contentType = "text/html; charset=utf-8" :=
  c9_body_and_content_type getRoot rfl rfl

/-- C10: a HEAD request to `/` is matched by the GET registration: status
200, empty body, and the same status, Content-Type and Content-Length
headers as any GET request to `/`. -/
theorem c10_head_root (req req' : HttpRequest)
    (h1 : req.method = "HEAD") (h2 : req.path = "/")
    (h3 : req'.method = "GET") (h4 : req'.path = "/") :
    (handle req).status = 200 ∧ (handle req).body = "" ∧
      (handle req).status = (handle req').status ∧
      (handle req).contentType = (handle req').contentType ∧
      (handle req).contentLength = (handle req').contentLength := by
  rw [handle_head_root req h1 h2, handle_get_root req' h3 h4]
  exact ⟨rfl, rfl, rfl, rfl, rfl⟩

/-- Witness for C10 at the concrete requests `headRoot` and `getRoot`. -/
theorem c10_head_root_witness :
    (handle headRoot).status = 200 ∧ (handle headRoot).body = "" ∧
      (handle headRoot).status = (handle getRoot).status ∧
      (handle headRoot).contentType = (handle getRoot).contentType ∧
      (handle headRoot).contentLength = (handle getRoot).contentLength :=
  c10_head_root headRoot getRoot rfl rfl rfl rfl
